import Mathlib

/-!
Verification development for the TorrentMax core (torrentmax/core/engine.py and
torrentmax/core/tuner.py), shallowly embedded in Lean.

Conventions of the embedding:
* Wall-clock time is modelled in whole milliseconds (`Nat`); the Python code
  computes `deadline = time.monotonic() + SHUTDOWN_RESUME_TIMEOUT` in seconds
  and waits in slices of `min(1000, int(remaining * 1000))` milliseconds.
* The libtorrent alert queue is modelled by a schedule: a list of entries
  `(delta, batch)` meaning the `wait_for_alert` call returned after `delta`
  milliseconds with the given batch of popped alerts (an empty batch models a
  null `wait_for_alert` result, which in the code advances time by the full
  wait slice).  Once the schedule is exhausted every further wait times out
  with no alert.
* The `outstanding` counter is an `Int`, exactly as a Python int that is
  decremented without a lower bound.
* Python dicts (`self._handles`, `PROFILES`, settings packs) are association
  lists with unique keys; dict removal is modelled by filtering the key out.
* Side effects (pausing the session, file writes, backend calls, log lines)
  are reified as explicit effect lists returned next to the new state.
* Percentages and severities (Python floats used only for exact decimal
  constants and comparisons) are modelled as `ℚ`.
-/

namespace TorrentMax

/-- A libtorrent torrent handle, reduced to the two predicates the shutdown
protocol queries (`is_valid`, `need_save_resume_data`). -/
structure Handle where
  isValid : Bool
  needSaveResumeData : Bool
deriving DecidableEq, Repr

/-- The alert variants distinguished by `_save_all_resume_data`:
`save_resume_data_alert` (carries the handle fingerprint and the blob that
`write_resume_data` serializes), `save_resume_data_failed_alert`, and every
other alert type, which the loop silently ignores. -/
inductive Alert where
  | saveResumeData (ih blob : String)
  | saveResumeDataFailed (ih : String)
  | other
deriving DecidableEq, Repr

/-- An alert is a recognized completion of a checkpoint request. -/
def Alert.isCompletion : Alert → Bool
  | .saveResumeData _ _ => true
  | .saveResumeDataFailed _ => true
  | .other => false

/-- State of the wait loop of `_save_all_resume_data`: the monotonic clock,
the outstanding counter, the resume blobs written so far (the
PersistenceStore), and the timeout warning, recording the outstanding count
it named, if it was logged. -/
structure LoopState where
  now : Nat
  outstanding : Int
  store : List (String × String)
  timeoutLog : Option Int
deriving DecidableEq, Repr

/-- Body of the `for alert in pop_alerts()` loop: a `save_resume_data_alert`
writes the blob keyed by the handle fingerprint and decrements the counter, a
`save_resume_data_failed_alert` decrements without writing, anything else is
ignored. -/
def processAlert (st : LoopState) : Alert → LoopState
  | .saveResumeData ih blob =>
      { st with outstanding := st.outstanding - 1, store := st.store ++ [(ih, blob)] }
  | .saveResumeDataFailed _ => { st with outstanding := st.outstanding - 1 }
  | .other => st

/-- SHUTDOWN_RESUME_TIMEOUT from engine.py, in seconds. -/
def SHUTDOWN_RESUME_TIMEOUT : Nat := 8

/-- The shutdown resume deadline offset, in milliseconds. -/
def shutdownTimeoutMs : Nat := SHUTDOWN_RESUME_TIMEOUT * 1000

/-- Behaviour of the wait loop after the alert schedule is exhausted: every
`wait_for_alert` times out after the full slice `min 1000 remaining`, so the
clock advances until the deadline check fires and the timeout warning is
logged (unless the counter is already `≤ 0`, in which case the `while` guard
exits first). -/
def drainTime (deadline : Nat) (st : LoopState) : LoopState :=
  if st.outstanding ≤ 0 then st
  else if deadline ≤ st.now then { st with timeoutLog := some st.outstanding }
  else drainTime deadline { st with now := st.now + min 1000 (deadline - st.now) }
termination_by deadline - st.now
decreasing_by
  simp_wf
  omega

/-- The `while outstanding > 0` wait loop of `_save_all_resume_data`, driven
by the alert schedule.  Each iteration re-checks the guard and the deadline,
waits `min 1000 remaining` milliseconds (the wait returns earlier, after
`delta`, when an alert batch arrives), then drains the popped batch. -/
def runLoop (deadline : Nat) : List (Nat × List Alert) → LoopState → LoopState
  | [], st => drainTime deadline st
  | (delta, batch) :: rest, st =>
      if st.outstanding ≤ 0 then st
      else if deadline ≤ st.now then { st with timeoutLog := some st.outstanding }
      else
        let waitMs := min 1000 (deadline - st.now)
        let st1 :=
          if batch.isEmpty then { st with now := st.now + waitMs }
          else { st with now := st.now + min delta waitMs }
        runLoop deadline rest (batch.foldl processAlert st1)

/-- Number of asynchronous checkpoint requests issued before the wait loop:
one per registered handle that is valid and reports unsaved changes. -/
def initialOutstanding (handles : List (String × Handle)) : Nat :=
  (handles.filter (fun p => p.2.isValid && p.2.needSaveResumeData)).length

/-- `_save_all_resume_data`: issue the checkpoint requests; when none were
issued return immediately, otherwise set the absolute deadline
`start + shutdownTimeoutMs` and run the wait loop against the schedule. -/
def saveAllResumeData (handles : List (String × Handle))
    (sched : List (Nat × List Alert)) (start : Nat) : LoopState :=
  let n := initialOutstanding handles
  if n = 0 then { now := start, outstanding := 0, store := [], timeoutLog := none }
  else runLoop (start + shutdownTimeoutMs) sched
    { now := start, outstanding := (n : Int), store := [], timeoutLog := none }

/-- Count of recognized completion events in one popped batch. -/
def countCompl (batch : List Alert) : Nat :=
  batch.countP (fun a => a.isCompletion)

/-- Total recognized completion events carried by a schedule. -/
def schedCompletions (sched : List (Nat × List Alert)) : Nat :=
  (sched.map (fun e => countCompl e.2)).sum

/-- Upper bound on the wall-clock time the loop can spend consuming a
schedule: a non-empty batch arrives after its `delta`, an empty batch costs at
most one full 1000 ms slice. -/
def schedBound (sched : List (Nat × List Alert)) : Nat :=
  (sched.map (fun e => if e.2.isEmpty then 1000 else e.1)).sum

/-- Observable side effects of the TorrentEngine methods: pausing the session,
the DHT-state write, one resume-blob write per completed checkpoint, the
timeout warning (naming the outstanding count), the backend `remove_torrent`
call, the removal-failure warning, the per-torrent removal info line, and the
final "Engine stopped" line. -/
inductive EngineEffect where
  | pauseSession
  | writeDhtState
  | writeResume (ih blob : String)
  | logTimeout (outstanding : Int)
  | backendRemove (ih : String) (deleteFiles : Bool)
  | logRemoveFailed
  | logRemoved (ih : String)
  | logStopped
deriving DecidableEq, Repr

/-- TorrentEngine state: whether `_session` is non-None, the `_stopped`
one-shot guard, and the `_handles` registry (a dict, so keys are unique). -/
structure Engine where
  sessionLive : Bool
  stopped : Bool
  handles : List (String × Handle)
deriving DecidableEq, Repr

/-- The effect trace produced by `_save_all_resume_data`: the resume-blob
writes in completion order, then the timeout warning if the deadline fired. -/
def resumeEffects (fin : LoopState) : List EngineEffect :=
  fin.store.map (fun p => EngineEffect.writeResume p.1 p.2) ++
    (match fin.timeoutLog with
     | some n => [EngineEffect.logTimeout n]
     | none => [])

/-- `TorrentEngine.stop`: return immediately when the session is gone or the
one-shot guard is set; otherwise set the guard, pause, write the DHT state,
run the bounded resume-checkpoint protocol, release the session and clear the
registry.  The schedule and start time parametrize the alert environment the
protocol runs against. -/
def stop (e : Engine) (sched : List (Nat × List Alert)) (start : Nat) :
    Engine × List EngineEffect :=
  if !e.sessionLive || e.stopped then (e, [])
  else
    let fin := saveAllResumeData e.handles sched start
    ({ sessionLive := false, stopped := true, handles := [] },
      EngineEffect.pauseSession :: EngineEffect.writeDhtState ::
        (resumeEffects fin ++ [EngineEffect.logStopped]))

/-- `TorrentEngine.remove_torrent`: pop the fingerprint from the registry
(dict `pop` with a default — a missing key changes nothing and produces
nothing); when a handle was found and `_session` is not None, ask the backend
to remove it (a backend failure is caught and logged, never raised) and log
the removal.  `backendFails` selects the environment in which the backend
call raises. -/
def remove_torrent (e : Engine) (ih : String) (deleteFiles : Bool)
    (backendFails : Bool) : Engine × List EngineEffect :=
  match e.handles.lookup ih with
  | none => (e, [])
  | some _ =>
      let e' := { e with handles := e.handles.filter (fun p => p.1 != ih) }
      if e.sessionLive then
        (e', EngineEffect.backendRemove ih deleteFiles ::
          ((if backendFails then [EngineEffect.logRemoveFailed] else []) ++
            [EngineEffect.logRemoved ih]))
      else (e', [])

/-- ConnectionType constants from network/detector.py. -/
def ConnectionType.WIFI : String := "wifi"

/-- ConnectionType.LAN from network/detector.py. -/
def ConnectionType.LAN : String := "lan"

/-- ConnectionType.UNKNOWN from network/detector.py. -/
def ConnectionType.UNKNOWN : String := "unknown"

/-- The PROFILES table from tuner.py: libtorrent setting overrides per
connection type. -/
def PROFILES : List (String × List (String × Int)) :=
  [(ConnectionType.WIFI,
     [("connections_limit", 100),
      ("max_out_request_queue", 500),
      ("send_buffer_watermark", 3 * 1024 * 1024),
      ("send_buffer_low_watermark", 512 * 1024),
      ("recv_socket_buffer_size", 1 * 1024 * 1024),
      ("send_socket_buffer_size", 1 * 1024 * 1024),
      ("request_queue_time", 3),
      ("whole_pieces_threshold", 20),
      ("cache_size", 1024),
      ("active_downloads", 3),
      ("active_seeds", 3)]),
   (ConnectionType.LAN,
     [("connections_limit", 300),
      ("max_out_request_queue", 1500),
      ("send_buffer_watermark", 16 * 1024 * 1024),
      ("send_buffer_low_watermark", 4 * 1024 * 1024),
      ("recv_socket_buffer_size", 4 * 1024 * 1024),
      ("send_socket_buffer_size", 4 * 1024 * 1024),
      ("request_queue_time", 3),
      ("whole_pieces_threshold", 5),
      ("cache_size", 4096),
      ("active_downloads", 5),
      ("active_seeds", 5)]),
   ("vpn",
     [("connections_limit", 150),
      ("max_out_request_queue", 1000),
      ("send_buffer_watermark", 8 * 1024 * 1024),
      ("send_buffer_low_watermark", 2 * 1024 * 1024),
      ("recv_socket_buffer_size", 2 * 1024 * 1024),
      ("send_socket_buffer_size", 2 * 1024 * 1024),
      ("request_queue_time", 4),
      ("whole_pieces_threshold", 10),
      ("cache_size", 2048),
      ("active_downloads", 3),
      ("active_seeds", 3)])]

/-- A detected performance bottleneck (the Bottleneck dataclass). -/
structure Bottleneck where
  category : String
  severity : ℚ
  message : String
  suggestion : String
deriving DecidableEq, Repr

/-- Session-level stats consumed by `analyze_bottlenecks`, with the dict
defaults (`.get(key, 0)`) already applied. -/
structure SessionStats where
  download_rate : Int
  num_peers : Int
deriving DecidableEq, Repr

/-- AutoTuner state: the currently applied profile name (initially
`ConnectionType.UNKNOWN`) and the manual override (`None` when unset). -/
structure AutoTuner where
  currentProfile : String
  overrideProfile : Option String
deriving DecidableEq, Repr

/-- Observable side effects of the AutoTuner: calls into
`TransferEngine.applySettings` and the log lines. -/
inductive TEffect where
  | applySettings (settings : List (String × Int))
  | logUnknownProfile (name : String)
  | logAppliedProfile (name : String)
  | logReducedConnections (n : Int)
deriving DecidableEq, Repr

/-- `AutoTuner._apply_profile`: look the name up in PROFILES; unknown names
are logged and nothing else happens; a known profile is pushed verbatim via
`applySettings` and becomes the current profile. -/
def applyProfile (t : AutoTuner) (name : String) : AutoTuner × List TEffect :=
  match PROFILES.lookup name with
  | none => (t, [TEffect.logUnknownProfile name])
  | some s =>
      ({ t with currentProfile := name },
        [TEffect.applySettings s, TEffect.logAppliedProfile name])

/-- `AutoTuner.set_manual_profile`: store the override, and when the name is
truthy (Python `if profile_name:` — non-None and non-empty) apply it
immediately. -/
def set_manual_profile (t : AutoTuner) (name : Option String) :
    AutoTuner × List TEffect :=
  let t1 := { t with overrideProfile := name }
  match name with
  | some n => if n = "" then (t1, []) else applyProfile t1 n
  | none => (t1, [])

/-- The profile computed from the probe outputs in `detect_and_apply`:
VPN-active wins, then a wifi classification, else the wired/LAN default. -/
def computedProfile (vpnActive : Bool) (connType : String) : String :=
  if vpnActive then "vpn"
  else if connType = ConnectionType.WIFI then ConnectionType.WIFI
  else ConnectionType.LAN

/-- The detection branch of `detect_and_apply` (reached when no truthy
override is set): compute the profile from the probes and apply it only when
it differs from the current one; always return the computed name. -/
def detectBody (t : AutoTuner) (vpnActive : Bool) (connType : String) :
    AutoTuner × List TEffect × String :=
  let name := computedProfile vpnActive connType
  if name = t.currentProfile then (t, [], name)
  else
    let r := applyProfile t name
    (r.1, r.2, name)

/-- `AutoTuner.detect_and_apply`, with the probe results (`VpnDetector
.is_active()`, `NetworkDetector.get_type()`) passed in as parameters: a truthy
manual override is returned verbatim with no further evaluation, otherwise
the detection branch runs. -/
def detect_and_apply (t : AutoTuner) (vpnActive : Bool) (connType : String) :
    AutoTuner × List TEffect × String :=
  match t.overrideProfile with
  | some p => if p = "" then detectBody t vpnActive connType else (t, [], p)
  | none => detectBody t vpnActive connType

/-- Round a rational to the nearest integer, ties to even — the rounding of
Python float formatting with `:.0f` (for the exact decimal values that occur
here).  Computed on the numerator and denominator: with `f = ⌊q⌋` and
remainder `r = q.num − f·q.den`, the fractional part `r/q.den` is compared
with one half by comparing `2r` with `q.den`. -/
def roundHalfEven (q : ℚ) : Int :=
  let f := q.floor
  let r := q.num - f * (q.den : Int)
  if 2 * r < (q.den : Int) then f
  else if (q.den : Int) < 2 * r then f + 1
  else if f % 2 = 0 then f else f + 1

/-- Render a percentage or rate like the Python format specifier `:.0f`. -/
def fmt0f (q : ℚ) : String := toString (roundHalfEven q)

/-- `AutoTuner.analyze_bottlenecks`: evaluate the four independent rule
groups in source order (disk with its elif, cpu, peers, network) and return
the concatenated list. -/
def analyze_bottlenecks (stats : SessionStats) (disk_usage_pct cpu_pct : ℚ) :
    List Bottleneck :=
  let dl := stats.download_rate
  let np := stats.num_peers
  (if disk_usage_pct > 90 then
      [{ category := "disk", severity := min 1 (disk_usage_pct / 100),
         message := "Disk loaded at " ++ fmt0f disk_usage_pct ++ "%",
         suggestion := "Reducing connections to lower disk pressure" }]
    else if disk_usage_pct > 70 then
      [{ category := "disk", severity := 1 / 2,
         message := "Disk at " ++ fmt0f disk_usage_pct ++ "%",
         suggestion := "Disk usage is elevated, monitoring" }]
    else []) ++
  (if cpu_pct > 85 then
      [{ category := "cpu", severity := min 1 (cpu_pct / 100),
         message := "CPU at " ++ fmt0f cpu_pct ++ "%",
         suggestion := "High CPU — may limit throughput" }]
    else []) ++
  (if dl > 0 ∧ np < 5 then
      [{ category := "peers", severity := 7 / 10,
         message := "Only " ++ toString np ++ " peers connected",
         suggestion := "Few peers available — speed limited by swarm" }]
    else []) ++
  (if np > 10 ∧ dl < 10 * 1024 then
      [{ category := "network", severity := 3 / 5,
         message := "Low speed (" ++ fmt0f ((dl : ℚ) / 1024) ++ " KB/s) with "
           ++ toString np ++ " peers",
         suggestion := "Network may be throttled or peers are slow" }]
    else [])

/-- The connection limit of the static baseline-profile table entry for a
profile name: `PROFILES.get(name, {}).get('connections_limit', 100)`. -/
def baselineConnLimit (name : String) : Int :=
  (((PROFILES.lookup name).getD []).lookup "connections_limit").getD 100

/-- `AutoTuner.apply_dynamic_adjustments`: for each disk bottleneck with
severity above 0.8, push `connections_limit = max 30 (B // 2)` live, where B
is read from the static PROFILES table for the current profile, and log the
reduction. -/
def apply_dynamic_adjustments (t : AutoTuner) : List Bottleneck → List TEffect
  | [] => []
  | bn :: rest =>
      (if bn.category = "disk" ∧ bn.severity > 4 / 5 then
          let reduced := max 30 (Int.fdiv (baselineConnLimit t.currentProfile) 2)
          [TEffect.applySettings [("connections_limit", reduced)],
           TEffect.logReducedConnections reduced]
        else []) ++ apply_dynamic_adjustments t rest

/-- Set or overwrite one key in a settings pack, preserving insertion order —
one key/value step of Python dict `update`. -/
def setKey : List (String × Int) → String → Int → List (String × Int)
  | [], k, v => [(k, v)]
  | (k', v') :: rest, k, v =>
      if k' = k then (k, v) :: rest else (k', v') :: setKey rest k v

/-- Python dict `update`: fold every key of the override map into the pack. -/
def updateSettings (pack s : List (String × Int)) : List (String × Int) :=
  s.foldl (fun acc kv => setKey acc kv.1 kv.2) pack

/-- Run a list of AutoTuner effects against a live settings pack:
`applySettings` merges its map (`TorrentEngine.apply_settings` does
`pack.update(settings)`), log lines change nothing. -/
def runTEffects (pack : List (String × Int)) : List TEffect → List (String × Int)
  | [] => pack
  | TEffect.applySettings s :: rest => runTEffects (updateSettings pack s) rest
  | _ :: rest => runTEffects pack rest

theorem foldl_processAlert_outstanding (batch : List Alert) :
    ∀ st : LoopState,
      (batch.foldl processAlert st).outstanding
        = st.outstanding - (countCompl batch : Int) := by
  induction batch with
  | nil => intro st; simp [countCompl]
  | cons a rest ih =>
      intro st
      rw [List.foldl_cons, ih]
      cases a <;>
        simp [processAlert, countCompl, List.countP_cons, Alert.isCompletion] <;>
        omega

theorem foldl_processAlert_now (batch : List Alert) :
    ∀ st : LoopState, (batch.foldl processAlert st).now = st.now := by
  induction batch with
  | nil => intro st; rfl
  | cons a rest ih =>
      intro st
      rw [List.foldl_cons, ih]
      cases a <;> rfl

theorem foldl_processAlert_timeoutLog (batch : List Alert) :
    ∀ st : LoopState,
      (batch.foldl processAlert st).timeoutLog = st.timeoutLog := by
  induction batch with
  | nil => intro st; rfl
  | cons a rest ih =>
      intro st
      rw [List.foldl_cons, ih]
      cases a <;> rfl

theorem drainTime_spec (deadline : Nat) (st : LoopState)
    (h : 0 < st.outstanding) :
    (drainTime deadline st).outstanding = st.outstanding ∧
    (drainTime deadline st).now = max st.now deadline ∧
    (drainTime deadline st).timeoutLog = some st.outstanding := by
  rw [drainTime]
  rw [if_neg (by omega)]
  by_cases hd : deadline ≤ st.now
  · rw [if_pos hd]
    refine ⟨rfl, ?_, rfl⟩
    dsimp only
    omega
  · rw [if_neg hd]
    obtain ⟨ho, hn, hl⟩ :=
      drainTime_spec deadline
        { st with now := st.now + min 1000 (deadline - st.now) } h
    refine ⟨ho, ?_, hl⟩
    rw [hn]
    dsimp only
    omega
termination_by deadline - st.now
decreasing_by
  simp_wf
  omega

theorem drainTime_stuck (deadline : Nat) (st : LoopState)
    (h : st.outstanding ≤ 0) : drainTime deadline st = st := by
  rw [drainTime, if_pos h]

theorem schedBound_cons (delta : Nat) (batch : List Alert)
    (rest : List (Nat × List Alert)) :
    schedBound ((delta, batch) :: rest)
      = (if batch.isEmpty then 1000 else delta) + schedBound rest := by
  simp [schedBound]

theorem schedCompletions_cons (delta : Nat) (batch : List Alert)
    (rest : List (Nat × List Alert)) :
    schedCompletions ((delta, batch) :: rest)
      = countCompl batch + schedCompletions rest := by
  simp [schedCompletions]

theorem runLoop_timeout_case (sched : List (Nat × List Alert)) :
    ∀ (st : LoopState) (deadline : Nat),
      st.now + schedBound sched < deadline →
      (schedCompletions sched : Int) < st.outstanding →
      (runLoop deadline sched st).outstanding
          = st.outstanding - (schedCompletions sched : Int) ∧
      (runLoop deadline sched st).now = deadline ∧
      (runLoop deadline sched st).timeoutLog
          = some (st.outstanding - (schedCompletions sched : Int)) := by
  induction sched with
  | nil =>
      intro st deadline hb hc
      have h0 : 0 < st.outstanding := lt_of_le_of_lt (Int.natCast_nonneg _) hc
      have hnow : st.now < deadline := by
        simp [schedBound] at hb; omega
      simp only [runLoop]
      obtain ⟨ho, hn, hl⟩ := drainTime_spec deadline st h0
      refine ⟨by rw [ho]; simp [schedCompletions], by rw [hn]; omega,
        by rw [hl]; simp [schedCompletions]⟩
  | cons e rest ih =>
      intro st deadline hb hc
      obtain ⟨delta, batch⟩ := e
      rw [schedBound_cons] at hb
      rw [schedCompletions_cons] at hc ⊢
      have h0 : 0 < st.outstanding := lt_of_le_of_lt (Int.natCast_nonneg _) hc
      have hnow : st.now < deadline := by omega
      simp only [runLoop]
      rw [if_neg (by omega), if_neg (by omega)]
      set waitMs := min 1000 (deadline - st.now) with hw
      set st1 := if batch.isEmpty then { st with now := st.now + waitMs }
        else { st with now := st.now + min delta waitMs } with hst1
      have hst1now : st1.now ≤ st.now + (if batch.isEmpty then 1000 else delta) := by
        rw [hst1]; by_cases he : batch.isEmpty <;> simp [he] <;> omega
      have hst1out : st1.outstanding = st.outstanding := by
        rw [hst1]; by_cases he : batch.isEmpty <;> simp [he]
      have hst1log : st1.timeoutLog = st.timeoutLog := by
        rw [hst1]; by_cases he : batch.isEmpty <;> simp [he]
      have h2now : (batch.foldl processAlert st1).now + schedBound rest < deadline := by
        rw [foldl_processAlert_now]; omega
      have h2out : (schedCompletions rest : Int)
          < (batch.foldl processAlert st1).outstanding := by
        rw [foldl_processAlert_outstanding, hst1out]; push_cast at hc ⊢; omega
      obtain ⟨o2, n2, l2⟩ := ih (batch.foldl processAlert st1) deadline h2now h2out
      rw [foldl_processAlert_outstanding, hst1out] at o2 l2
      refine ⟨?_, n2, ?_⟩
      · rw [o2]; push_cast; ring
      · rw [l2]; congr 1; push_cast; ring

theorem runLoop_complete (sched : List (Nat × List Alert)) :
    ∀ (st : LoopState) (deadline : Nat),
      st.now + schedBound sched < deadline →
      st.outstanding = (schedCompletions sched : Int) →
      (runLoop deadline sched st).outstanding = 0 ∧
      (runLoop deadline sched st).now < deadline ∧
      (runLoop deadline sched st).timeoutLog = st.timeoutLog := by
  induction sched with
  | nil =>
      intro st deadline hb hc
      simp [schedCompletions] at hc
      simp [schedBound] at hb
      simp only [runLoop]
      rw [drainTime_stuck deadline st (by omega)]
      exact ⟨hc, by omega, rfl⟩
  | cons e rest ih =>
      intro st deadline hb hc
      obtain ⟨delta, batch⟩ := e
      rw [schedBound_cons] at hb
      rw [schedCompletions_cons] at hc
      by_cases hz : st.outstanding ≤ 0
      · have hzero : st.outstanding = 0 := by
          have : (0 : Int) ≤ ((countCompl batch + schedCompletions rest : Nat) : Int) :=
            Int.natCast_nonneg _
          push_cast at this hc; omega
        simp only [runLoop]
        rw [if_pos hz]
        exact ⟨hzero, by omega, rfl⟩
      · have hnow : st.now < deadline := by omega
        simp only [runLoop]
        rw [if_neg hz, if_neg (by omega)]
        set waitMs := min 1000 (deadline - st.now) with hw
        set st1 := if batch.isEmpty then { st with now := st.now + waitMs }
          else { st with now := st.now + min delta waitMs } with hst1
        have hst1now : st1.now ≤ st.now + (if batch.isEmpty then 1000 else delta) := by
          rw [hst1]; by_cases he : batch.isEmpty <;> simp [he] <;> omega
        have hst1out : st1.outstanding = st.outstanding := by
          rw [hst1]; by_cases he : batch.isEmpty <;> simp [he]
        have hst1log : st1.timeoutLog = st.timeoutLog := by
          rw [hst1]; by_cases he : batch.isEmpty <;> simp [he]
        have h2now : (batch.foldl processAlert st1).now + schedBound rest < deadline := by
          rw [foldl_processAlert_now]; omega
        have h2out : (batch.foldl processAlert st1).outstanding
            = (schedCompletions rest : Int) := by
          rw [foldl_processAlert_outstanding, hst1out]; push_cast at hc ⊢; omega
        obtain ⟨o2, n2, l2⟩ := ih (batch.foldl processAlert st1) deadline h2now h2out
        rw [foldl_processAlert_timeoutLog, hst1log] at l2
        exact ⟨o2, n2, l2⟩

theorem drainTime_dichotomy (deadline : Nat) (st : LoopState) :
    (drainTime deadline st).outstanding ≤ 0 ∨
      ((drainTime deadline st).timeoutLog).isSome = true := by
  by_cases h : 0 < st.outstanding
  · right
    rw [(drainTime_spec deadline st h).2.2]
    rfl
  · rw [drainTime_stuck deadline st (by omega)]
    left; omega

theorem runLoop_dichotomy (sched : List (Nat × List Alert)) :
    ∀ (st : LoopState) (deadline : Nat),
      (runLoop deadline sched st).outstanding ≤ 0 ∨
        ((runLoop deadline sched st).timeoutLog).isSome = true := by
  induction sched with
  | nil => intro st deadline; exact drainTime_dichotomy deadline st
  | cons e rest ih =>
      intro st deadline
      obtain ⟨delta, batch⟩ := e
      simp only [runLoop]
      by_cases h1 : st.outstanding ≤ 0
      · rw [if_pos h1]; left; exact h1
      · rw [if_neg h1]
        by_cases h2 : deadline ≤ st.now
        · rw [if_pos h2]; right; rfl
        · rw [if_neg h2]; exact ih _ deadline

/-- C1: For the bounded resume-checkpoint protocol run at shutdown with N
registered handles that are valid and report unsaved changes (so N
asynchronous checkpoint requests are issued) and deadline D = start + 8 s:
if the schedule delivers all N completion events within the deadline budget,
the protocol returns with the outstanding counter equal to 0 at a time
strictly before D and no timeout is logged; if it delivers only K < N
completions, the protocol stops exactly at D with the counter equal to N − K
and logs the timeout warning naming that outstanding count; and for every
schedule whatsoever the protocol terminates with either a drained counter or
a logged timeout. -/
theorem resume_protocol_bounded (handles : List (String × Handle))
    (sched : List (Nat × List Alert)) (start : Nat) (N : Nat)
    (hN : N = initialOutstanding handles) (hpos : 0 < N)
    (hb : schedBound sched < shutdownTimeoutMs) :
    (schedCompletions sched = N →
      (saveAllResumeData handles sched start).outstanding = 0 ∧
      (saveAllResumeData handles sched start).now < start + shutdownTimeoutMs ∧
      (saveAllResumeData handles sched start).timeoutLog = none) ∧
    (∀ K : Nat, schedCompletions sched = K → K < N →
      (saveAllResumeData handles sched start).outstanding = (N : Int) - (K : Int) ∧
      (saveAllResumeData handles sched start).now = start + shutdownTimeoutMs ∧
      (saveAllResumeData handles sched start).timeoutLog
          = some ((N : Int) - (K : Int))) ∧
    (∀ (sched' : List (Nat × List Alert)) (start' : Nat),
      (saveAllResumeData handles sched' start').outstanding ≤ 0 ∨
        ((saveAllResumeData handles sched' start').timeoutLog).isSome = true) := by
  subst hN
  have hne : initialOutstanding handles ≠ 0 := by omega
  refine ⟨?_, ?_, ?_⟩
  · intro hall
    unfold saveAllResumeData
    rw [if_neg hne]
    have := runLoop_complete sched
      { now := start, outstanding := (initialOutstanding handles : Int),
        store := [], timeoutLog := none }
      (start + shutdownTimeoutMs) (by dsimp only; omega)
      (by dsimp only; rw [hall])
    exact this
  · intro K hK hKN
    unfold saveAllResumeData
    rw [if_neg hne]
    have := runLoop_timeout_case sched
      { now := start, outstanding := (initialOutstanding handles : Int),
        store := [], timeoutLog := none }
      (start + shutdownTimeoutMs) (by dsimp only; omega)
      (by dsimp only; rw [hK]; exact_mod_cast hKN)
    rw [hK] at this
    dsimp only at this
    exact this
  · intro sched' start'
    unfold saveAllResumeData
    by_cases hz : initialOutstanding handles = 0
    · rw [if_pos hz]; left; dsimp only; omega
    · rw [if_neg hz]; exact runLoop_dichotomy sched' _ _

/-- C1 witness: two handles with unsaved changes, both completions delivered
inside the deadline: the counter drains to 0 strictly before the deadline and
no timeout is logged. -/
theorem resume_protocol_bounded_witness :
    (saveAllResumeData [("h1", ⟨true, true⟩), ("h2", ⟨true, true⟩)]
        [(100, [Alert.saveResumeData "h1" "b1"]),
         (200, [Alert.saveResumeDataFailed "h2"])] 0).outstanding = 0 ∧
    (saveAllResumeData [("h1", ⟨true, true⟩), ("h2", ⟨true, true⟩)]
        [(100, [Alert.saveResumeData "h1" "b1"]),
         (200, [Alert.saveResumeDataFailed "h2"])] 0).now < 0 + shutdownTimeoutMs ∧
    (saveAllResumeData [("h1", ⟨true, true⟩), ("h2", ⟨true, true⟩)]
        [(100, [Alert.saveResumeData "h1" "b1"]),
         (200, [Alert.saveResumeDataFailed "h2"])] 0).timeoutLog = none :=
  (resume_protocol_bounded [("h1", ⟨true, true⟩), ("h2", ⟨true, true⟩)]
      [(100, [Alert.saveResumeData "h1" "b1"]),
       (200, [Alert.saveResumeDataFailed "h2"])] 0 2
      (by decide) (by decide) (by decide)).1 (by decide)

/-- C2: one pass of the alert-draining body never increases the outstanding
counter; a checkpoint-saved alert appends the blob to the persistence store
keyed by the handle fingerprint and decrements the counter by exactly one; a
checkpoint-failed alert decrements by exactly one without writing; any other
alert leaves the state untouched; consequently, after draining any batch in
any arrival order the counter has dropped by exactly the number of recognized
completions in the batch, and a whole wait-loop run never increases it. -/
theorem resume_loop_counter_invariant :
    (∀ (st : LoopState) (a : Alert),
        (processAlert st a).outstanding ≤ st.outstanding) ∧
    (∀ (st : LoopState) (ih blob : String),
        processAlert st (Alert.saveResumeData ih blob)
          = { st with outstanding := st.outstanding - 1,
                      store := st.store ++ [(ih, blob)] }) ∧
    (∀ (st : LoopState) (ih : String),
        processAlert st (Alert.saveResumeDataFailed ih)
          = { st with outstanding := st.outstanding - 1 }) ∧
    (∀ st : LoopState, processAlert st Alert.other = st) ∧
    (∀ (st : LoopState) (batch : List Alert),
        (batch.foldl processAlert st).outstanding
          = st.outstanding - (countCompl batch : Int)) ∧
    (∀ (deadline : Nat) (sched : List (Nat × List Alert)) (st : LoopState),
        (runLoop deadline sched st).outstanding ≤ st.outstanding) := by
  refine ⟨?_, fun _ _ _ => rfl, fun _ _ => rfl, fun _ => rfl, ?_, ?_⟩
  · intro st a
    cases a <;> simp [processAlert]
  · intro st batch
    exact foldl_processAlert_outstanding batch st
  · intro deadline sched st
    induction sched generalizing st with
    | nil =>
        simp only [runLoop]
        by_cases h : 0 < st.outstanding
        · rw [(drainTime_spec deadline st h).1]
        · rw [drainTime_stuck deadline st (by omega)]
    | cons e rest ih =>
        obtain ⟨delta, batch⟩ := e
        simp only [runLoop]
        by_cases h1 : st.outstanding ≤ 0
        · rw [if_pos h1]
        · rw [if_neg h1]
          by_cases h2 : deadline ≤ st.now
          · rw [if_pos h2]
          · rw [if_neg h2]
            refine le_trans (ih _) ?_
            rw [foldl_processAlert_outstanding]
            have : (0 : Int) ≤ (countCompl batch : Int) := Int.natCast_nonneg _
            by_cases he : batch.isEmpty <;> simp [he] <;> omega

theorem lookup_filter_self (l : List (String × Handle)) (ih : String) :
    (l.filter (fun p => p.1 != ih)).lookup ih = none := by
  induction l with
  | nil => rfl
  | cons a rest ihr =>
      by_cases h : a.1 = ih
      · simpa [List.filter_cons, h] using ihr
      · have hba : (ih == a.1) = false := by
          simp [Ne.symm h]
        simp [List.filter_cons, h, List.lookup, hba, ihr]

theorem lookup_filter_other (l : List (String × Handle)) (ih k : String)
    (hk : k ≠ ih) :
    (l.filter (fun p => p.1 != ih)).lookup k = l.lookup k := by
  induction l with
  | nil => rfl
  | cons a rest ihr =>
      by_cases h : a.1 = ih
      · rw [List.filter_cons, if_neg (by simp [h]), ihr]
        have : (k == a.1) = false := by simp [h, hk]
        simp [List.lookup, this]
      · rw [List.filter_cons, if_pos (by simp [h])]
        by_cases hka : k = a.1
        · simp [List.lookup, hka]
        · have : (k == a.1) = false := by simp [hka]
          simp [List.lookup, this, ihr]

theorem stop_guard (e : Engine) (s : List (Nat × List Alert)) (t : Nat)
    (h : e.sessionLive = false ∨ e.stopped = true) : stop e s t = (e, []) := by
  unfold stop
  rw [if_pos]
  rcases h with h | h <;> simp [h]

theorem stop_run_state (e : Engine) (s : List (Nat × List Alert)) (t : Nat)
    (h1 : e.sessionLive = true) (h2 : e.stopped = false) :
    (stop e s t).1 = { sessionLive := false, stopped := true, handles := [] } := by
  unfold stop
  rw [if_neg (by simp [h1, h2])]

/-- C3: stop is idempotent.  For every engine state and every alert
environment, the second stop call observes the one-shot guard (or the absent
session) and returns immediately, changing nothing and producing no effects;
hence the effect trace of two calls equals the effect trace of one, and the
final state is the state after the first call. -/
theorem stop_idempotent (e : Engine) (s₁ s₂ : List (Nat × List Alert))
    (t₁ t₂ : Nat) :
    stop (stop e s₁ t₁).1 s₂ t₂ = ((stop e s₁ t₁).1, []) ∧
    (stop e s₁ t₁).2 ++ (stop (stop e s₁ t₁).1 s₂ t₂).2 = (stop e s₁ t₁).2 := by
  have hsecond : stop (stop e s₁ t₁).1 s₂ t₂ = ((stop e s₁ t₁).1, []) := by
    by_cases h1 : e.sessionLive = true
    · by_cases h2 : e.stopped = true
      · rw [stop_guard e s₁ t₁ (Or.inr h2)]
        exact stop_guard e s₂ t₂ (Or.inr h2)
      · rw [stop_run_state e s₁ t₁ h1 (by simp at h2; exact h2)]
        exact stop_guard _ s₂ t₂ (Or.inl rfl)
    · have h1' : e.sessionLive = false := by simp at h1; exact h1
      rw [stop_guard e s₁ t₁ (Or.inl h1')]
      exact stop_guard e s₂ t₂ (Or.inl h1')
  refine ⟨hsecond, ?_⟩
  rw [hsecond]
  simp

theorem remove_found_state (e : Engine) (ih : String) (df bf : Bool)
    (hdl : Handle) (hl : e.handles.lookup ih = some hdl) :
    (remove_torrent e ih df bf).1
      = { e with handles := e.handles.filter (fun p => p.1 != ih) } := by
  unfold remove_torrent
  rw [hl]
  by_cases hs : e.sessionLive <;> simp [hs]

/-- C4: for every fingerprint present in the handle registry,
remove_torrent removes that entry unconditionally — also when the
backend-side removal raises (the error is caught and logged, and the model's
total return type carries no error channel, so nothing is surfaced): the
final engine state is identical whether the backend fails or not, every
other registry entry and the rest of the engine state are untouched. -/
theorem remove_torrent_always_unregisters (e : Engine) (ih : String)
    (df : Bool) (h : (e.handles.lookup ih).isSome = true) :
    (∀ bf, (remove_torrent e ih df bf).1.handles.lookup ih = none) ∧
    (remove_torrent e ih df true).1 = (remove_torrent e ih df false).1 ∧
    (∀ bf k, k ≠ ih →
      (remove_torrent e ih df bf).1.handles.lookup k = e.handles.lookup k) ∧
    (∀ bf, (remove_torrent e ih df bf).1.sessionLive = e.sessionLive ∧
      (remove_torrent e ih df bf).1.stopped = e.stopped) := by
  obtain ⟨hdl, hl⟩ := Option.isSome_iff_exists.mp h
  refine ⟨?_, ?_, ?_, ?_⟩
  · intro bf
    rw [remove_found_state e ih df bf hdl hl]
    exact lookup_filter_self e.handles ih
  · rw [remove_found_state e ih df true hdl hl,
      remove_found_state e ih df false hdl hl]
  · intro bf k hk
    rw [remove_found_state e ih df bf hdl hl]
    exact lookup_filter_other e.handles ih k hk
  · intro bf
    rw [remove_found_state e ih df bf hdl hl]
    exact ⟨rfl, rfl⟩

/-- C4 witness: a one-entry registry; the registered fingerprint is gone
after remove_torrent, also in the environment where the backend fails. -/
theorem remove_torrent_always_unregisters_witness :
    (∀ bf, (remove_torrent ⟨true, false, [("x", ⟨true, false⟩)]⟩ "x" false
        bf).1.handles.lookup "x" = none) ∧
    (remove_torrent ⟨true, false, [("x", ⟨true, false⟩)]⟩ "x" false true).1
      = (remove_torrent ⟨true, false, [("x", ⟨true, false⟩)]⟩ "x" false false).1 ∧
    (∀ bf k, k ≠ "x" →
      (remove_torrent ⟨true, false, [("x", ⟨true, false⟩)]⟩ "x" false
          bf).1.handles.lookup k
        = (Engine.mk true false [("x", ⟨true, false⟩)]).handles.lookup k) ∧
    (∀ bf, (remove_torrent ⟨true, false, [("x", ⟨true, false⟩)]⟩ "x" false
        bf).1.sessionLive = true ∧
      (remove_torrent ⟨true, false, [("x", ⟨true, false⟩)]⟩ "x" false
        bf).1.stopped = false) :=
  remove_torrent_always_unregisters ⟨true, false, [("x", ⟨true, false⟩)]⟩
    "x" false (by decide)

/-- C10: removing a fingerprint that is not registered is a complete silent
no-op — the engine state (registry included) is returned unchanged and the
effect trace is empty (no backend call, no log line), in every environment
and regardless of whether the engine is running. -/
theorem remove_torrent_missing_noop (e : Engine) (ih : String) (df bf : Bool)
    (h : e.handles.lookup ih = none) :
    remove_torrent e ih df bf = (e, []) := by
  unfold remove_torrent
  rw [h]

/-- C10 witness: removing an unknown fingerprint from a running engine with
one other entry changes nothing and produces no effects. -/
theorem remove_torrent_missing_noop_witness :
    remove_torrent ⟨true, false, [("x", ⟨true, false⟩)]⟩ "y" true false
      = (⟨true, false, [("x", ⟨true, false⟩)]⟩, []) :=
  remove_torrent_missing_noop ⟨true, false, [("x", ⟨true, false⟩)]⟩ "y"
    true false (by decide)

/-- The bottleneck rule table as the spec words it, independently evaluated
row by row, reduced to the (category, severity) pairs the rows prescribe:
disk > 90 → (disk, min 1 (disk/100)); 70 < disk ≤ 90 → (disk, 0.5);
cpu > 85 → (cpu, min 1 (cpu/100)); downloadRate > 0 ∧ peers < 5 →
(peers, 0.7); peers > 10 ∧ downloadRate < 10 KiB/s → (network, 0.6). -/
def specBottleneckPairs (stats : SessionStats) (disk cpu : ℚ) :
    List (String × ℚ) :=
  (if disk > 90 then [("disk", min 1 (disk / 100))] else []) ++
  (if 70 < disk ∧ disk ≤ 90 then [("disk", 1 / 2)] else []) ++
  (if cpu > 85 then [("cpu", min 1 (cpu / 100))] else []) ++
  (if stats.download_rate > 0 ∧ stats.num_peers < 5 then [("peers", 7 / 10)]
    else []) ++
  (if stats.num_peers > 10 ∧ stats.download_rate < 10 * 1024 then
    [("network", 3 / 5)] else [])

/-- C5: analyze_bottlenecks is a pure function of (stats, diskPct, cpuPct) —
in this embedding it is a function, so identical inputs give the identical
ordered list definitionally — and for every input its (category, severity)
projection equals exactly the independently-evaluated rule table of the
spec; in particular peers = 12 with downloadRate = 5120 B/s (disk and cpu
unremarkable) yields exactly the single bottleneck (network, 0.6). -/
theorem analyze_bottlenecks_pure_rules :
    (∀ (stats : SessionStats) (disk cpu : ℚ),
      (analyze_bottlenecks stats disk cpu).map (fun b => (b.category, b.severity))
        = specBottleneckPairs stats disk cpu) ∧
    analyze_bottlenecks ⟨5120, 12⟩ 50 40
      = [{ category := "network", severity := 3 / 5,
           message := "Low speed (5 KB/s) with 12 peers",
           suggestion := "Network may be throttled or peers are slow" }] := by
  constructor
  · intro stats disk cpu
    unfold analyze_bottlenecks specBottleneckPairs
    split_ifs <;> simp_all <;> linarith
  · unfold analyze_bottlenecks
    dsimp only
    rw [if_neg (by norm_num), if_neg (by norm_num), if_neg (by norm_num),
      if_neg (by omega : ¬((5120 : Int) > 0 ∧ (12 : Int) < 5)),
      if_pos (by omega : (12 : Int) > 10 ∧ (5120 : Int) < 10 * 1024)]
    simp only [List.nil_append, List.append_nil, List.cons.injEq, and_true,
      Bottleneck.mk.injEq]
    refine ⟨trivial, trivial, ?_⟩
    rw [show ((5120 : Int) : ℚ) / 1024 = (5 : ℚ) by norm_num]
    decide

/-- C6: while a manual override is set (a stored name, non-empty — exactly
the condition the code's truthiness guard tests), detect_and_apply returns
the override name verbatim, performs no settings application, leaves the
controller state unchanged, and its result does not depend on the VPN /
connection-type probe outputs: two runs with arbitrary different probe
results produce identical results. -/
theorem override_wins_detect_and_apply (t : AutoTuner) (p : String)
    (hp : t.overrideProfile = some p) (hne : p ≠ "")
    (v₁ v₂ : Bool) (c₁ c₂ : String) :
    detect_and_apply t v₁ c₁ = detect_and_apply t v₂ c₂ ∧
    detect_and_apply t v₁ c₁ = (t, [], p) := by
  have h : ∀ (v : Bool) (c : String), detect_and_apply t v c = (t, [], p) := by
    intro v c
    unfold detect_and_apply
    rw [hp]
    simp [hne]
  exact ⟨(h v₁ c₁).trans (h v₂ c₂).symm, h v₁ c₁⟩

/-- C6 witness: with override "vpn" set, two runs with opposite VPN and
connection-type probe results coincide and return "vpn" with no effects. -/
theorem override_wins_detect_and_apply_witness :
    detect_and_apply ⟨ConnectionType.LAN, some "vpn"⟩ true ConnectionType.WIFI
      = detect_and_apply ⟨ConnectionType.LAN, some "vpn"⟩ false ConnectionType.LAN ∧
    detect_and_apply ⟨ConnectionType.LAN, some "vpn"⟩ true ConnectionType.WIFI
      = (⟨ConnectionType.LAN, some "vpn"⟩, [], "vpn") :=
  override_wins_detect_and_apply ⟨ConnectionType.LAN, some "vpn"⟩ "vpn"
    rfl (by decide) true false ConnectionType.WIFI ConnectionType.LAN

/-- C7: with no truthy manual override, when the profile computed from the
probes (VPN wins, then wifi, else the LAN default) equals the currently
active profile, detect_and_apply produces no effects — no applySettings call
— and leaves the controller state unchanged, returning the computed name. -/
theorem detect_and_apply_noop_same_profile (t : AutoTuner) (v : Bool)
    (c : String)
    (hov : t.overrideProfile = none ∨ t.overrideProfile = some "")
    (heq : computedProfile v c = t.currentProfile) :
    detect_and_apply t v c = (t, [], computedProfile v c) := by
  have hbody : detectBody t v c = (t, [], computedProfile v c) := by
    unfold detectBody
    rw [if_pos heq]
  unfold detect_and_apply
  rcases hov with h | h <;> rw [h]
  · exact hbody
  · simpa using hbody

/-- C7 witness: no override, wired connection, current profile already
"lan": the run returns "lan", changes nothing and applies nothing. -/
theorem detect_and_apply_noop_same_profile_witness :
    detect_and_apply ⟨ConnectionType.LAN, none⟩ false "ethernet0"
      = (⟨ConnectionType.LAN, none⟩, [], computedProfile false "ethernet0") :=
  detect_and_apply_noop_same_profile ⟨ConnectionType.LAN, none⟩ false
    "ethernet0" (Or.inl rfl) (by decide)

/-- C9: for every name that names a profile of the PROFILES table,
set_manual_profile stores it as the manual override and immediately applies
it: the profile's parameter bundle is pushed verbatim via applySettings and
the current-profile state becomes that name. -/
theorem set_manual_profile_applies (t : AutoTuner) (name : String)
    (s : List (String × Int)) (hs : PROFILES.lookup name = some s) :
    set_manual_profile t (some name)
      = ({ currentProfile := name, overrideProfile := some name },
         [TEffect.applySettings s, TEffect.logAppliedProfile name]) := by
  have hnone : PROFILES.lookup "" = none := by decide
  have hne : name ≠ "" := by
    intro h
    rw [h, hnone] at hs
    exact Option.noConfusion hs
  unfold set_manual_profile
  simp only
  rw [if_neg hne]
  unfold applyProfile
  rw [hs]

/-- C9 witness: setting the manual profile "vpn" stores the override and
immediately pushes the vpn bundle, making "vpn" current. -/
theorem set_manual_profile_applies_witness :
    set_manual_profile ⟨ConnectionType.UNKNOWN, none⟩ (some "vpn")
      = ({ currentProfile := "vpn", overrideProfile := some "vpn" },
         [TEffect.applySettings ((PROFILES.lookup "vpn").getD []),
          TEffect.logAppliedProfile "vpn"]) :=
  set_manual_profile_applies ⟨ConnectionType.UNKNOWN, none⟩ "vpn"
    ((PROFILES.lookup "vpn").getD []) (by decide)

theorem setKey_idem (l : List (String × Int)) (k : String) (v : Int) :
    setKey (setKey l k v) k v = setKey l k v := by
  induction l with
  | nil => simp [setKey]
  | cons a rest ih =>
      obtain ⟨k', v'⟩ := a
      by_cases h : k' = k
      · simp [setKey, h]
      · simp [setKey, h, ih]

theorem lookup_setKey (l : List (String × Int)) (k : String) (v : Int) :
    (setKey l k v).lookup k = some v := by
  induction l with
  | nil => simp [setKey, List.lookup]
  | cons a rest ih =>
      obtain ⟨k', v'⟩ := a
      by_cases h : k' = k
      · simp [setKey, h, List.lookup]
      · have hb : (k == k') = false := by simp [Ne.symm h]
        simp [setKey, h, List.lookup, hb, ih]

theorem runTEffects_apply_cons (pack s : List (String × Int))
    (effs : List TEffect) :
    runTEffects pack (TEffect.applySettings s :: effs)
      = runTEffects (updateSettings pack s) effs := rfl

theorem runTEffects_log_cons (pack : List (String × Int)) (n : Int)
    (effs : List TEffect) :
    runTEffects pack (TEffect.logReducedConnections n :: effs)
      = runTEffects pack effs := rfl

theorem updateSettings_single (pack : List (String × Int)) (k : String)
    (v : Int) : updateSettings pack [(k, v)] = setKey pack k v := rfl

theorem runTEffects_adjust (t : AutoTuner) (bns : List Bottleneck) :
    ∀ pack : List (String × Int),
      runTEffects pack (apply_dynamic_adjustments t bns)
        = if ∃ bn ∈ bns, bn.category = "disk" ∧ bn.severity > 4 / 5
          then setKey pack "connections_limit"
                 (max 30 (Int.fdiv (baselineConnLimit t.currentProfile) 2))
          else pack := by
  induction bns with
  | nil => intro pack; simp [apply_dynamic_adjustments, runTEffects]
  | cons bn rest ih =>
      intro pack
      by_cases h : bn.category = "disk" ∧ bn.severity > 4 / 5
      · have hcons : ∃ x ∈ bn :: rest, x.category = "disk" ∧ x.severity > 4 / 5 :=
          ⟨bn, List.mem_cons_self bn rest, h⟩
        simp only [apply_dynamic_adjustments]
        rw [if_pos h, if_pos hcons]
        simp only [List.cons_append, List.nil_append]
        rw [runTEffects_apply_cons, updateSettings_single, runTEffects_log_cons,
          ih]
        by_cases hr : ∃ x ∈ rest, x.category = "disk" ∧ x.severity > 4 / 5
        · rw [if_pos hr, setKey_idem]
        · rw [if_neg hr]
      · simp only [apply_dynamic_adjustments]
        rw [if_neg h]
        simp only [List.nil_append]
        rw [ih]
        by_cases hr : ∃ x ∈ rest, x.category = "disk" ∧ x.severity > 4 / 5
        · obtain ⟨x, hx, hxp⟩ := hr
          rw [if_pos ⟨x, hx, hxp⟩, if_pos ⟨x, List.mem_cons_of_mem bn hx, hxp⟩]
        · rw [if_neg hr, if_neg ?_]
          intro hc
          obtain ⟨x, hx, hxp⟩ := hc
          rcases List.mem_cons.mp hx with rfl | hx'
          · exact h hxp
          · exact hr ⟨x, hx', hxp⟩

/-- C8: applyDynamicAdjustments pushes, for each disk bottleneck with
severity above 0.8, connections_limit = max 30 (B // 2) where B is the
connection limit of the static baseline-profile table entry for the current
profile (default 100 when the profile is absent from the table), not the
live applied value; the pushed value is therefore idempotent on the live
settings pack — applying the produced effects twice equals applying them
once, no compounding of the halving; concretely the wifi baseline is 100, a
95% disk load yields exactly the single bottleneck (disk, 0.95), and pushing
the produced adjustment onto any live settings pack whatsoever leaves
connections_limit at 50. -/
theorem dynamic_adjustment_baseline_halving :
    (∀ (t : AutoTuner) (bn : Bottleneck),
        bn.category = "disk" → bn.severity > 4 / 5 →
        apply_dynamic_adjustments t [bn]
          = [TEffect.applySettings
               [("connections_limit",
                 max 30 (Int.fdiv (baselineConnLimit t.currentProfile) 2))],
             TEffect.logReducedConnections
               (max 30 (Int.fdiv (baselineConnLimit t.currentProfile) 2))]) ∧
    (∀ (t : AutoTuner) (bns : List Bottleneck) (pack : List (String × Int)),
        runTEffects (runTEffects pack (apply_dynamic_adjustments t bns))
            (apply_dynamic_adjustments t bns)
          = runTEffects pack (apply_dynamic_adjustments t bns)) ∧
    baselineConnLimit ConnectionType.WIFI = 100 ∧
    (analyze_bottlenecks ⟨0, 0⟩ 95 40).map (fun b => (b.category, b.severity))
      = [("disk", 19 / 20)] ∧
    (∀ pack : List (String × Int),
        (runTEffects pack
            (apply_dynamic_adjustments ⟨ConnectionType.WIFI, none⟩
              (analyze_bottlenecks ⟨0, 0⟩ 95 40))).lookup "connections_limit"
          = some 50) := by
  have h_an : analyze_bottlenecks ⟨0, 0⟩ 95 40
      = [{ category := "disk", severity := min 1 ((95 : ℚ) / 100),
           message := "Disk loaded at 95%",
           suggestion := "Reducing connections to lower disk pressure" }] := by
    unfold analyze_bottlenecks
    dsimp only
    rw [if_pos (by norm_num : (95 : ℚ) > 90),
      if_neg (by norm_num : ¬((40 : ℚ) > 85)),
      if_neg (by omega : ¬((0 : Int) > 0 ∧ (0 : Int) < 5)),
      if_neg (by omega : ¬((0 : Int) > 10 ∧ (0 : Int) < 10 * 1024))]
    simp only [List.append_nil, List.cons.injEq, and_true, Bottleneck.mk.injEq]
    refine ⟨trivial, trivial, ?_⟩
    decide
  have hsev : min (1 : ℚ) (95 / 100) = 19 / 20 := by
    rw [min_eq_right (by norm_num)]
    norm_num
  have h_adj : apply_dynamic_adjustments ⟨ConnectionType.WIFI, none⟩
      (analyze_bottlenecks ⟨0, 0⟩ 95 40)
      = [TEffect.applySettings [("connections_limit", 50)],
         TEffect.logReducedConnections 50] := by
    rw [h_an]
    simp only [apply_dynamic_adjustments]
    rw [if_pos ⟨trivial, by rw [hsev]; norm_num⟩]
    decide
  refine ⟨?_, ?_, by decide, ?_, ?_⟩
  · intro t bn h1 h2
    simp only [apply_dynamic_adjustments]
    rw [if_pos ⟨h1, h2⟩]
    simp
  · intro t bns pack
    rw [runTEffects_adjust t bns pack, runTEffects_adjust t bns]
    by_cases hc : ∃ x ∈ bns, x.category = "disk" ∧ x.severity > 4 / 5
    · rw [if_pos hc, if_pos hc, setKey_idem]
    · rw [if_neg hc, if_neg hc]
  · rw [h_an]
    simp only [List.map_cons, List.map_nil, List.cons.injEq, and_true,
      Prod.mk.injEq, true_and]
    exact hsev
  · intro pack
    rw [h_adj, runTEffects_apply_cons, updateSettings_single,
      runTEffects_log_cons]
    exact lookup_setKey pack "connections_limit" 50

/-- C8 witness: a disk bottleneck of severity 0.9 under the lan profile
produces exactly one applySettings push of the halved lan baseline (with the
30 floor) plus its log line. -/
theorem dynamic_adjustment_baseline_halving_witness :
    apply_dynamic_adjustments ⟨ConnectionType.LAN, none⟩
        [⟨"disk", 9 / 10, "m", "s"⟩]
      = [TEffect.applySettings
           [("connections_limit",
             max 30 (Int.fdiv (baselineConnLimit ConnectionType.LAN) 2))],
         TEffect.logReducedConnections
           (max 30 (Int.fdiv (baselineConnLimit ConnectionType.LAN) 2))] :=
  dynamic_adjustment_baseline_halving.1 ⟨ConnectionType.LAN, none⟩
    ⟨"disk", 9 / 10, "m", "s"⟩ rfl (by norm_num)

end TorrentMax
